import Mathlib

/-
Verification development for the chatbot-backend repository.

Shallow embedding of the Python sources:
  app/routes/chat.py, app/routes/auth.py, app/services/gemini_service.py,
  app/services/auth_service.py, app/utils/validators.py, app/config.py.

Conventions of the embedding:
  - Python strings are Lean `String`; `len` is `String.length`,
    `str.strip()` is modelled by `pyStrip` (ASCII whitespace, the
    characters Python strips by default on ASCII text).
  - The database session is explicit state: a list of rows per table.
    A commit is the construction of the next state value; an exception
    before the commit leaves the state unchanged.
  - The filesystem under the upload root is a list of stored paths.
    `os.remove` may fail (the sources themselves guard it with
    try/except in several places, and the image route documents real
    PermissionError failures), so deletion outcomes are driven by a
    `removeOk` oracle; `aiofiles` writes always succeed.
  - Exceptions raised out of a route are values of `ReqError`:
    `http` for fastapi HTTPException, `attrError` for an uncaught
    Python AttributeError, `osError` for an uncaught error from
    `os.remove`.  An uncaught non-HTTP exception is a 500 at the ASGI
    layer; it is kept distinguishable from an explicit HTTPException.
  - External providers (Gemini, AssemblyAI, gTTS, SendGrid) are
    modelled by outcome oracles supplied as arguments.
-/

/-- Result of a request handler: an HTTPException with status code and
detail, or an uncaught Python exception. -/
inductive ReqError where
  | http (statusCode : Nat) (detail : String)
  | attrError (name : String)
  | osError (path : String)
deriving DecidableEq

deriving instance DecidableEq for Except

/-- True for the ASCII characters removed by Python str.strip() with no
argument. -/
def isPySpace (c : Char) : Bool :=
  c == ' ' || c == '\t' || c == '\n' || c == '\r' ||
  c == Char.ofNat 11 || c == Char.ofNat 12

/-- Python str.strip(): drop leading and trailing whitespace. -/
def pyStrip (s : String) : String :=
  String.mk (((s.data.dropWhile isPySpace).reverse.dropWhile isPySpace).reverse)

/-- Whether the first list occurs as an initial run of the second. -/
def leadsList : List Char → List Char → Bool
  | [], _ => true
  | _ :: _, [] => false
  | a :: as, b :: bs => a == b && leadsList as bs

/-- Whether the first list occurs contiguously anywhere in the second. -/
def hasSubList : List Char → List Char → Bool
  | n, [] => n.isEmpty
  | n, c :: t => leadsList n (c :: t) || hasSubList n t

/-- Python `needle in hay` on strings. -/
def pyInStr (needle hay : String) : Bool :=
  hasSubList needle.data hay.data

/-- Python s[:200]. -/
def pyTake200 (s : String) : String :=
  String.mk (s.data.take 200)

/-- Python str.lower() on ASCII text. -/
def pyLower (s : String) : String :=
  String.mk (s.data.map Char.toLower)

/-- Python str.split(sep) for a one-character separator, on the
character list: split at every occurrence, keeping empty pieces. -/
def splitOnChar (sep : Char) : List Char → List (List Char)
  | [] => [[]]
  | c :: t =>
    let r := splitOnChar sep t
    if c == sep then [] :: r
    else
      match r with
      | h :: t2 => (c :: h) :: t2
      | [] => [[c]]

/-- Python str.split(sep) for a one-character separator. -/
def pySplit (s : String) (sep : Char) : List String :=
  (splitOnChar sep s.data).map String.mk

/- ----------------------------------------------------------------
app/services/gemini_service.py
---------------------------------------------------------------- -/

def GEMINI_TIMEOUT : Nat := 60
def MAX_RETRIES : Nat := 2
def RETRY_DELAY : Nat := 1

/-- gemini_service.GeminiService.validate_and_process_message, verbatim:
reject when the message is falsy or strips to length 0, reject when the
raw (unstripped) length exceeds 5000, otherwise return the stripped
message. -/
def validate_and_process_message (message : String) : Except ReqError String :=
  if message == "" || (pyStrip message).length == 0 then
    .error (.http 400 "Message cannot be empty")
  else if message.length > 5000 then
    .error (.http 400 "Message is too long. Maximum 5000 characters allowed.")
  else
    .ok (pyStrip message)

/-- Outcome of one attempt of the blocking Gemini call as observed by the
retry loop: a returned text, an asyncio.TimeoutError, an HTTPException
raised by the sync body, or any other exception carrying str(e). -/
inductive GenAttempt where
  | ok (text : String)
  | timeout
  | httpExc (statusCode : Nat) (detail : String)
  | exc (msg : String)
deriving DecidableEq

/-- The substring keywords gemini_service.py matches against the
lowercased exception text to classify an error as network-transient. -/
def networkKeywords : List String :=
  ["503", "failed to connect", "socket", "connection",
   "timeout", "unreachable", "dns", "network", "failed to connect to all addresses"]

/-- is_network_error from gemini_service.py: any keyword occurs in the
lowercased exception text. -/
def isNetworkErrorStr (excText : String) : Bool :=
  networkKeywords.any (fun kw => pyInStr kw (pyLower excText))

/-- Outcome of the final allowed attempt (`attempt = MAX_RETRIES`, no
retries left): a success returns, a timeout raises the stored 504
last_error, an HTTPException propagates, and any other exception —
network-classified or not, the two Python paths produce the same raise
here — becomes the 500 with the variant-specific detail.  The post-loop
503 raise of the source is unreachable: every iteration returns,
raises, or continues, and the final iteration cannot continue. -/
def lastAttempt (failPre : String) : GenAttempt → Except ReqError String × List Nat
  | .ok s => (.ok s, [])
  | .timeout => (.error (.http 504 "AI service timeout. Please try again."), [])
  | .httpExc c d => (.error (.http c d), [])
  | .exc e => (.error (.http 500 (failPre ++ pyTake200 e)), [])

/-- The retry loop shared by generate_text_response and
generate_image_response (they differ only in the 500 detail text).
`i` is the Python `attempt` index, `rem` the number of retries still
allowed (`rem = MAX_RETRIES - i`, so `rem > 0` iff `attempt < MAX_RETRIES`).
While retries remain, a success or an HTTPException ends the loop, and a
timeout or a network-classified exception sleeps `RETRY_DELAY * (attempt
+ 1)` seconds and continues; a non-network exception raises the 500.
Returns the final outcome together with the list of back-off sleeps
performed. -/
def geminiLoop (failPre : String) (att : Nat → GenAttempt) (i : Nat) :
    Nat → Except ReqError String × List Nat
  | 0 => lastAttempt failPre (att i)
  | r + 1 =>
    match att i with
    | .ok s => (.ok s, [])
    | .timeout =>
      let nxt := geminiLoop failPre att (i + 1) r
      (nxt.1, RETRY_DELAY * (i + 1) :: nxt.2)
    | .httpExc c d => (.error (.http c d), [])
    | .exc e =>
      if isNetworkErrorStr e then
        let nxt := geminiLoop failPre att (i + 1) r
        (nxt.1, RETRY_DELAY * (i + 1) :: nxt.2)
      else
        (.error (.http 500 (failPre ++ pyTake200 e)), [])

/-- gemini_service.GeminiService.generate_text_response: the retry loop
over attempts 0..MAX_RETRIES with the text-variant failure detail. -/
def generate_text_response (att : Nat → GenAttempt) :
    Except ReqError String × List Nat :=
  geminiLoop "Failed to generate AI response: " att 0 MAX_RETRIES

/-- gemini_service.GeminiService.generate_image_response: the same retry
loop with the image-variant failure detail. -/
def generate_image_response (att : Nat → GenAttempt) :
    Except ReqError String × List Nat :=
  geminiLoop "Failed to generate AI response for image: " att 0 MAX_RETRIES

/- ----------------------------------------------------------------
app/models/chat.py and app/config.py
---------------------------------------------------------------- -/

/-- models/chat.MessageType. -/
inductive MessageType where
  | text
  | image
  | voice
deriving DecidableEq

/-- One row of the chat_history table (models/chat.ChatHistory).
UUIDs and timestamps are abstracted to Nat. -/
structure ChatRow where
  id : Nat
  user_id : Nat
  message : String
  response : String
  message_type : MessageType
  image_url : Option String
  voice_url : Option String
  response_audio_url : Option String
  created_at : Nat
deriving DecidableEq

/-- Server-side mutable state touched by the chat routes: the
chat_history table and the files stored under the upload root. -/
structure ServerState where
  db : List ChatRow
  fs : List String
deriving DecidableEq

/-- The field names declared on config.Settings (config.py).  Note the
absence of an audio allow-list: ALLOWED_AUDIO_TYPES is not declared. -/
def settingsFields : List String :=
  ["APP_NAME", "ENVIRONMENT", "DEBUG", "DATABASE_URL", "SECRET_KEY",
   "ALGORITHM", "ACCESS_TOKEN_EXPIRE_MINUTES", "RESET_TOKEN_EXPIRE_MINUTES",
   "SENDGRID_API_KEY", "FROM_EMAIL", "GEMINI_API_KEY", "FRONTEND_URL",
   "MAX_UPLOAD_SIZE", "ALLOWED_IMAGE_TYPES"]

/-- config.Settings.MAX_UPLOAD_SIZE default: 10 MB. -/
def MAX_UPLOAD_SIZE : Nat := 10 * 1024 * 1024

/-- Python attribute lookup on the settings singleton for list-of-string
valued attributes.  Settings is a pydantic BaseSettings with only the
declared fields (extras from the environment are ignored), so looking up
an undeclared name yields no value, which at runtime is an
AttributeError. -/
def settingsListAttr (name : String) : Option (List String) :=
  if name == "ALLOWED_IMAGE_TYPES" then
    some ["image/jpeg", "image/jpg", "image/png", "image/gif", "image/webp"]
  else
    none

/- ----------------------------------------------------------------
app/routes/chat.py : send_message
---------------------------------------------------------------- -/

/-- The uploaded voice file as read by the route: its declared MIME
type, its filename, and len(contents). -/
structure VoiceFile where
  content_type : String
  filename : String
  size : Nat
deriving DecidableEq

/-- The configuration values the send_message route reads from the
settings object. -/
structure ChatConfig where
  allowedAudioTypes : List String
  maxUploadSize : Nat
deriving DecidableEq

/-- Environment of one send_message request: outcomes of the external
calls and the fresh values generated during the request. -/
structure ChatEnv where
  sttOutcome : Except String String
  ttsOk : Bool
  genAtt : Nat → GenAttempt
  removeOk : String → Bool
  freshVoiceName : String
  freshAudioName : String
  baseUrl : String
  newId : Nat
  now : Nat

/-- file_extension computation of the voice branch:
voice.filename.split(".")[-1] if "." in voice.filename else "mp3". -/
def fileExt (filename : String) : String :=
  if '.' ∈ filename.data then (pySplit filename '.').getLastD "mp3" else "mp3"

/-- unique_filename of the voice branch: a fresh uuid joined with the
extension of the uploaded filename. -/
def voiceFileName (env : ChatEnv) (v : VoiceFile) : String :=
  env.freshVoiceName ++ "." ++ fileExt v.filename

/-- Response shape of send_message / upload_image. -/
structure ChatMessageWithHistory where
  current_chat : ChatRow
  chat_history : List ChatRow
  total_chats : Nat
deriving DecidableEq

/-- Deterministic stand-in for the ORDER BY created_at DESC readback
inside send_message (the relational, nondeterministic treatment of
ordering used for the history route is `get_chat_history` below; no
claim constrains the readback inside send_message beyond its length
bound). -/
def sortByCreatedDesc (l : List ChatRow) : List ChatRow :=
  l.insertionSort (fun a b => b.created_at ≤ a.created_at)

/-- Shared tail of send_message from the NORMALIZE step on: validate the
message text, call the Gemini adapter, optionally synthesize audio
(voice submissions only, best effort), then insert the row and read back
the 20 most recent other turns plus the total count. -/
def sendMessageTail (env : ChatEnv) (userId : Nat) (messageText : String)
    (voiceUrl : Option String) (isVoice : Bool) (st : ServerState) :
    Except ReqError ChatMessageWithHistory × ServerState :=
  match validate_and_process_message messageText with
  | .error e => (.error e, st)
  | .ok mt =>
    match (generate_text_response env.genAtt).1 with
    | .error e => (.error e, st)
    | .ok ai =>
      let respAudioFile := env.freshAudioName ++ ".mp3"
      let ttsRes : Option String × List String :=
        if isVoice then
          if env.ttsOk then
            (some (env.baseUrl ++ "/uploads/" ++ respAudioFile),
             ("uploads/" ++ respAudioFile) :: st.fs)
          else (none, st.fs)
        else (none, st.fs)
      let row : ChatRow :=
        { id := env.newId
          user_id := userId
          message := mt
          response := ai
          message_type := if isVoice then .voice else .text
          image_url := none
          voice_url := voiceUrl
          response_audio_url := ttsRes.1
          created_at := env.now }
      let db' := st.db ++ [row]
      let prev := (sortByCreatedDesc (db'.filter
        (fun r => r.user_id == userId && !(r.id == row.id)))).take 20
      let total := (db'.filter (fun r => r.user_id == userId)).length
      (.ok { current_chat := row, chat_history := prev, total_chats := total },
       { db := db', fs := ttsRes.2 })

/-- routes/chat.send_message with the configuration the route reads from
settings passed explicitly (the resolution of those attributes on the
actual Settings object is `send_message_app` below).  Voice branch:
MIME-type check, size check, store the file, STT with file cleanup on
failure (the cleanup itself is try/except-guarded, so a failed remove is
swallowed); text branch: use the message directly; neither: 400. -/
def send_message (cfg : ChatConfig) (env : ChatEnv) (userId : Nat)
    (message : Option String) (voice : Option VoiceFile) (st : ServerState) :
    Except ReqError ChatMessageWithHistory × ServerState :=
  match voice with
  | some v =>
    if !(cfg.allowedAudioTypes.contains v.content_type) then
      (.error (.http 400 ("Invalid file type. Allowed types: " ++
        String.intercalate ", " cfg.allowedAudioTypes)), st)
    else if v.size > cfg.maxUploadSize then
      (.error (.http 400 "File too large. Maximum size exceeded."), st)
    else
      let uniqueFilename := voiceFileName env v
      let path := "uploads/" ++ uniqueFilename
      let fs1 := path :: st.fs
      match env.sttOutcome with
      | .error e =>
        let fs2 :=
          if path ∈ fs1 then
            if env.removeOk path then fs1.erase path else fs1
          else fs1
        (.error (.http 500 ("Error processing voice note: " ++ e)),
         { st with fs := fs2 })
      | .ok transcript =>
        let voiceUrl := env.baseUrl ++ "/uploads/" ++ uniqueFilename
        sendMessageTail env userId transcript (some voiceUrl) true
          { st with fs := fs1 }
  | none =>
    match message with
    | some m => sendMessageTail env userId m none false st
    | none =>
      (.error (.http 400 "Either 'message' (text) or 'voice' (file) must be provided"),
       st)

/-- send_message as deployed: the voice branch first resolves
settings.ALLOWED_AUDIO_TYPES (chat.py line 46).  Settings declares no
such field, so the lookup raises AttributeError before any validation
or storage write. -/
def send_message_app (env : ChatEnv) (userId : Nat) (message : Option String)
    (voice : Option VoiceFile) (st : ServerState) :
    Except ReqError ChatMessageWithHistory × ServerState :=
  match voice with
  | some v =>
    match settingsListAttr "ALLOWED_AUDIO_TYPES" with
    | none => (.error (.attrError "ALLOWED_AUDIO_TYPES"), st)
    | some allowed =>
      send_message { allowedAudioTypes := allowed, maxUploadSize := MAX_UPLOAD_SIZE }
        env userId message (some v) st
  | none =>
    send_message { allowedAudioTypes := [], maxUploadSize := MAX_UPLOAD_SIZE }
      env userId message none st

/- ----------------------------------------------------------------
app/routes/chat.py : history and delete routes
---------------------------------------------------------------- -/

/-- The rows of the chat_history table belonging to one user. -/
def ownerRows (db : List ChatRow) (userId : Nat) : List ChatRow :=
  db.filter (fun r => r.user_id == userId)

/-- A list ordered the way ORDER BY created_at DESC orders rows:
adjacent timestamps are non-increasing.  Nothing more is guaranteed by
the query, which names no secondary sort key. -/
def createdAtDescOrdered (l : List ChatRow) : Prop :=
  l.Chain' (fun a b => b.created_at ≤ a.created_at)

/-- routes/chat.get_chat_history as a relation between the database and
one possible response: the route caps limit at 100, and the SQL layer
returns OFFSET skip / LIMIT limit of SOME ordering of the user's rows
that is sorted by created_at descending — with equal timestamps the
relative order is not determined, so distinct calls may observe
different orderings. -/
def get_chat_history (db : List ChatRow) (userId skip limit : Nat)
    (result : List ChatRow) : Prop :=
  ∃ ord : List ChatRow,
    ord.Perm (ownerRows db userId) ∧
    createdAtDescOrdered ord ∧
    result = (ord.drop skip).take (if limit > 100 then 100 else limit)

/-- url.split("/")[-1]. -/
def lastUrlSegment (url : String) : String :=
  (pySplit url '/').getLastD ""

/-- routes/chat.delete_chat: look up the turn scoped to the caller (404
otherwise); if it references an image file that exists, os.remove it
WITHOUT any try/except — a removal failure propagates out of the route
and the turn is never deleted; otherwise delete the row. -/
def delete_chat (removeOk : String → Bool) (userId chatId : Nat)
    (st : ServerState) : Except ReqError String × ServerState :=
  match st.db.find? (fun r => r.id == chatId && r.user_id == userId) with
  | none => (.error (.http 404 "Chat not found"), st)
  | some chat =>
    match chat.image_url with
    | some url =>
      let path := "uploads/" ++ lastUrlSegment url
      if path ∈ st.fs then
        if removeOk path then
          (.ok "Chat deleted successfully",
           { db := st.db.erase chat, fs := st.fs.erase path })
        else
          (.error (.osError path), st)
      else
        (.ok "Chat deleted successfully", { st with db := st.db.erase chat })
    | none =>
      (.ok "Chat deleted successfully", { st with db := st.db.erase chat })

/-- The asset pass of delete_all_chats: for each fetched turn, if it
references an image file that exists, try to remove it, swallowing any
failure (try/except pass).  Only image_url is consulted; voice_url and
response_audio_url files are never touched. -/
def deleteAllAssets (removeOk : String → Bool) (chats : List ChatRow)
    (fs : List String) : List String :=
  chats.foldl (fun acc c =>
    match c.image_url with
    | some url =>
      let path := "uploads/" ++ lastUrlSegment url
      if path ∈ acc then
        if removeOk path then acc.erase path else acc
      else acc
    | none => acc) fs

/-- routes/chat.delete_all_chats: fetch the caller's turns, best-effort
delete their image files, then delete all the rows and report the
count. -/
def delete_all_chats (removeOk : String → Bool) (userId : Nat)
    (st : ServerState) : Except ReqError String × ServerState :=
  let chats := st.db.filter (fun r => r.user_id == userId)
  let fs' := deleteAllAssets removeOk chats st.fs
  let db' := st.db.filter (fun r => !(r.user_id == userId))
  (.ok ("Deleted " ++ toString chats.length ++ " chat(s) successfully"),
   { db := db', fs := fs' })

/- ----------------------------------------------------------------
app/utils/validators.py and app/utils/security.py
---------------------------------------------------------------- -/

/-- re.search on the character class of validators.py: [A-Z]. -/
def hasUpper (s : String) : Bool :=
  s.data.any (fun c => 'A' ≤ c && c ≤ 'Z')

/-- re.search [a-z]. -/
def hasLower (s : String) : Bool :=
  s.data.any (fun c => 'a' ≤ c && c ≤ 'z')

/-- re.search for a digit. -/
def hasDigit (s : String) : Bool :=
  s.data.any (fun c => '0' ≤ c && c ≤ '9')

/-- validators.validate_password_strength: at least 8 characters, one
uppercase, one lowercase, one digit, each violation with its own 400. -/
def validate_password_strength (password : String) : Except ReqError Unit :=
  if password.length < 8 then
    .error (.http 400 "Password must be at least 8 characters long")
  else if !(hasUpper password) then
    .error (.http 400 "Password must contain at least one uppercase letter")
  else if !(hasLower password) then
    .error (.http 400 "Password must contain at least one lowercase letter")
  else if !(hasDigit password) then
    .error (.http 400 "Password must contain at least one number")
  else
    .ok ()

/-- security.get_password_hash: bcrypt abstracted as an opaque tagging
of the plaintext (no claim depends on properties of the hash beyond it
being derived from the new password). -/
def get_password_hash (password : String) : String :=
  "bcrypt$" ++ password

/- ----------------------------------------------------------------
app/models/user.py, models/chat.PasswordResetToken, auth state
---------------------------------------------------------------- -/

/-- One row of the users table (models/user.User, the fields the claims
touch). -/
structure UserRow where
  id : Nat
  email : String
  username : String
  hashed_password : String
deriving DecidableEq

/-- One row of password_reset_tokens (models/chat.PasswordResetToken). -/
structure TokenRow where
  id : Nat
  user_id : Nat
  token : String
  expires_at : Nat
  is_used : Bool
  created_at : Nat
deriving DecidableEq

/-- The relational state the auth flows touch. -/
structure AuthDb where
  users : List UserRow
  tokens : List TokenRow
deriving DecidableEq

/- ----------------------------------------------------------------
app/services/auth_service.py and app/routes/auth.py
---------------------------------------------------------------- -/

/-- Fresh values generated during a password-reset-request: the opaque
token from secrets.token_urlsafe(32), its row id, the expiry instant
(now + RESET_TOKEN_EXPIRE_MINUTES) and the creation instant. -/
structure ResetEnv where
  genToken : String
  tokenId : Nat
  expiresAt : Nat
  now : Nat

/-- auth_service.AuthService.create_password_reset_token: look the user
up by email (404 when absent), then append a fresh unused token row and
commit. -/
def create_password_reset_token (env : ResetEnv) (db : AuthDb)
    (email : String) : Except ReqError (UserRow × String × AuthDb) :=
  match db.users.find? (fun u => u.email == email) with
  | none => .error (.http 404 "User with this email not found")
  | some user =>
    .ok (user, env.genToken,
      { db with tokens := db.tokens ++
        [{ id := env.tokenId, user_id := user.id, token := env.genToken,
           expires_at := env.expiresAt, is_used := false,
           created_at := env.now }] })

/-- routes/auth.forgot_password: attempt token issuance and email
sending inside try; an HTTPException (the 404 for an unknown email —
EmailService never raises, it catches all its own failures) is turned
into the alternative wording.  The two branches return DIFFERENT
message strings. -/
def forgot_password (env : ResetEnv) (db : AuthDb) (email : String) :
    String × AuthDb :=
  match create_password_reset_token env db email with
  | .ok (_, _, db') =>
    ("Password reset email sent successfully. Check your inbox (or console for testing).",
     db')
  | .error _ =>
    ("If an account with that email exists, a password reset link has been sent.",
     db)

/-- auth_service.AuthService.reset_password: strength-check the new
password first, then find the token row (400 when absent), then check
expiry, then the used flag, then find the owner (404 when absent); on
success update the user's hash and flip is_used in the same commit.
Returns the outcome together with the resulting state (unchanged on
every failure path, since every raise happens before the commit). -/
def reset_password (db : AuthDb) (token newPassword : String) (now : Nat) :
    Except ReqError Unit × AuthDb :=
  match validate_password_strength newPassword with
  | .error e => (.error e, db)
  | .ok _ =>
    match db.tokens.find? (fun t => t.token == token) with
    | none => (.error (.http 400 "Invalid or expired reset token"), db)
    | some resetToken =>
      if resetToken.expires_at < now then
        (.error (.http 400 "Reset token has expired"), db)
      else if resetToken.is_used then
        (.error (.http 400 "Reset token has already been used"), db)
      else
        match db.users.find? (fun u => u.id == resetToken.user_id) with
        | none => (.error (.http 404 "User not found"), db)
        | some user =>
          (.ok (),
           { users := db.users.map (fun u =>
               if u.id == user.id then
                 { u with hashed_password := get_password_hash newPassword }
               else u)
             tokens := db.tokens.map (fun t =>
               if t.token == token then { t with is_used := true } else t) })

/- ----------------------------------------------------------------
Concrete instances used in counterexamples and witnesses
---------------------------------------------------------------- -/

/-- A voice-route configuration with one allowed MIME type. -/
def cfgEx : ChatConfig :=
  { allowedAudioTypes := ["audio/mpeg"], maxUploadSize := MAX_UPLOAD_SIZE }

/-- A small valid voice upload. -/
def voiceEx : VoiceFile :=
  { content_type := "audio/mpeg", filename := "note.mp3", size := 4 }

/-- Empty server state. -/
def stEmpty : ServerState := { db := [], fs := [] }

/-- A request environment in which transcription raises and the cleanup
os.remove also fails (swallowed by the except/pass around it). -/
def envSttFail : ChatEnv :=
  { sttOutcome := .error "boom", ttsOk := false, genAtt := fun _ => .ok "hi",
    removeOk := fun _ => false, freshVoiceName := "u1", freshAudioName := "a1",
    baseUrl := "http://h", newId := 1, now := 5 }

/-- Same request environment but the cleanup os.remove succeeds. -/
def envSttFailRemOk : ChatEnv :=
  { sttOutcome := .error "boom", ttsOk := false, genAtt := fun _ => .ok "hi",
    removeOk := fun _ => true, freshVoiceName := "u1", freshAudioName := "a1",
    baseUrl := "http://h", newId := 1, now := 5 }

/-- An environment where STT and generation succeed but TTS fails. -/
def envTtsFail : ChatEnv :=
  { sttOutcome := .ok "hello there", ttsOk := false, genAtt := fun _ => .ok "hi",
    removeOk := fun _ => true, freshVoiceName := "u1", freshAudioName := "a1",
    baseUrl := "http://h", newId := 1, now := 5 }

/-- An attempt oracle that fails every attempt with a transient
connection error. -/
def attConnRefused : Nat → GenAttempt := fun _ => .exc "connection refused"

/-- An attempt oracle that succeeds immediately. -/
def attOkHi : Nat → GenAttempt := fun _ => .ok "hi"

/-- An attempt oracle that times out on every attempt. -/
def attTimeoutAll : Nat → GenAttempt := fun _ => .timeout

/-- A 5001-character message whose stripped form has exactly 5000
characters: 5000 letters followed by one trailing space. -/
def longMsgC6 : String := String.mk (List.replicate 5000 'a' ++ [' '])

/-- One chat row per index, all with the same created_at timestamp. -/
def rowC3 (i : Nat) : ChatRow :=
  { id := i, user_id := 1, message := "m", response := "r",
    message_type := .text, image_url := none, voice_url := none,
    response_audio_url := none, created_at := 5 }

/-- A history of 100 turns for user 1, all sharing one timestamp. -/
def dbC3 : List ChatRow := (List.range 100).map rowC3

/-- Two rows with distinct ids and distinct timestamps for user 1. -/
def rowC3a : ChatRow :=
  { id := 10, user_id := 1, message := "m", response := "r",
    message_type := .text, image_url := none, voice_url := none,
    response_audio_url := none, created_at := 9 }

def rowC3b : ChatRow :=
  { id := 11, user_id := 1, message := "m", response := "r",
    message_type := .text, image_url := none, voice_url := none,
    response_audio_url := none, created_at := 8 }

def dbC3small : List ChatRow := [rowC3a, rowC3b]

/-- An image turn whose stored file exists. -/
def rowImgC8 : ChatRow :=
  { id := 1, user_id := 7, message := "m", response := "r",
    message_type := .image, image_url := some "http://h/uploads/img1.png",
    voice_url := none, response_audio_url := none, created_at := 5 }

def stC8 : ServerState := { db := [rowImgC8], fs := ["uploads/img1.png"] }

/-- A voice turn with stored input audio and response audio. -/
def rowVoiceC8 : ChatRow :=
  { id := 2, user_id := 7, message := "m", response := "r",
    message_type := .voice, image_url := none,
    voice_url := some "http://h/uploads/v1.mp3",
    response_audio_url := some "http://h/uploads/ra1.mp3", created_at := 6 }

def stC8v : ServerState :=
  { db := [rowVoiceC8], fs := ["uploads/v1.mp3", "uploads/ra1.mp3"] }

/-- os.remove oracle that always fails. -/
def removeFail : String → Bool := fun _ => false

/-- os.remove oracle that always succeeds. -/
def removeSucc : String → Bool := fun _ => true

/-- An auth store with one registered user and no tokens. -/
def dbAuthC4 : AuthDb :=
  { users := [{ id := 1, email := "alice@example.com", username := "alice",
                hashed_password := "bcrypt$Passw0rd" }],
    tokens := [] }

/-- Fresh values for a password-reset request. -/
def envResetC4 : ResetEnv :=
  { genToken := "tok123", tokenId := 1, expiresAt := 100, now := 50 }

/-- An auth store holding one valid, unexpired, unused reset token for
its one user. -/
def dbTokC9 : AuthDb :=
  { users := [{ id := 1, email := "alice@example.com", username := "alice",
                hashed_password := "bcrypt$Old1pass" }],
    tokens := [{ id := 1, user_id := 1, token := "t1", expires_at := 100,
                 is_used := false, created_at := 0 }] }

/-- An auth store whose one token is both expired and already used. -/
def dbTokC10 : AuthDb :=
  { users := [{ id := 1, email := "alice@example.com", username := "alice",
                hashed_password := "bcrypt$Old1pass" }],
    tokens := [{ id := 1, user_id := 1, token := "t1", expires_at := 40,
                 is_used := true, created_at := 0 }] }

/-- Whether one attempt outcome is one the retry loop treats as
transient: a timeout, or an exception whose text matches the network
keywords. -/
def transientAttempt : GenAttempt → Bool
  | .timeout => true
  | .exc e => isNetworkErrorStr e
  | _ => false

/- ----------------------------------------------------------------
Helper lemmas
---------------------------------------------------------------- -/

/-- A successful attempt returns at once, with no back-off sleeps. -/
theorem geminiLoop_ok {att : Nat → GenAttempt} {i : Nat} {s : String}
    (failPre : String) (rem : Nat) (h : att i = .ok s) :
    geminiLoop failPre att i rem = (.ok s, []) := by
  cases rem with
  | zero => simp [geminiLoop, lastAttempt, h]
  | succ r => simp [geminiLoop, h]

/-- An HTTPException from the attempt body propagates at once. -/
theorem geminiLoop_httpExc {att : Nat → GenAttempt} {i c : Nat} {d : String}
    (failPre : String) (rem : Nat) (h : att i = .httpExc c d) :
    geminiLoop failPre att i rem = (.error (.http c d), []) := by
  cases rem with
  | zero => simp [geminiLoop, lastAttempt, h]
  | succ r => simp [geminiLoop, h]

/-- A non-network exception becomes a 500 at once, on any attempt. -/
theorem geminiLoop_exc_nonNet {att : Nat → GenAttempt} {i : Nat} {e : String}
    (failPre : String) (rem : Nat) (h : att i = .exc e)
    (hn : isNetworkErrorStr e = false) :
    geminiLoop failPre att i rem = (.error (.http 500 (failPre ++ pyTake200 e)), []) := by
  cases rem with
  | zero => simp [geminiLoop, lastAttempt, h]
  | succ r => simp [geminiLoop, h, hn]

/-- A timeout with retries left sleeps linearly and recurses. -/
theorem geminiLoop_timeout_step {att : Nat → GenAttempt} {i : Nat}
    (failPre : String) (r : Nat) (h : att i = .timeout) :
    geminiLoop failPre att i (r + 1) =
      ((geminiLoop failPre att (i + 1) r).1,
       RETRY_DELAY * (i + 1) :: (geminiLoop failPre att (i + 1) r).2) := by
  simp [geminiLoop, h]

/-- A timeout on the final attempt surfaces the 504. -/
theorem geminiLoop_timeout_last {att : Nat → GenAttempt} {i : Nat}
    (failPre : String) (h : att i = .timeout) :
    geminiLoop failPre att i 0 =
      (.error (.http 504 "AI service timeout. Please try again."), []) := by
  simp [geminiLoop, lastAttempt, h]

/-- A network-classified exception with retries left sleeps linearly and
recurses. -/
theorem geminiLoop_exc_net_step {att : Nat → GenAttempt} {i : Nat} {e : String}
    (failPre : String) (r : Nat) (h : att i = .exc e)
    (hn : isNetworkErrorStr e = true) :
    geminiLoop failPre att i (r + 1) =
      ((geminiLoop failPre att (i + 1) r).1,
       RETRY_DELAY * (i + 1) :: (geminiLoop failPre att (i + 1) r).2) := by
  simp [geminiLoop, h, hn]

/-- Any exception on the final attempt surfaces a 500 (not the dead
post-loop 503). -/
theorem geminiLoop_exc_last {att : Nat → GenAttempt} {i : Nat} {e : String}
    (failPre : String) (h : att i = .exc e) :
    geminiLoop failPre att i 0 =
      (.error (.http 500 (failPre ++ pyTake200 e)), []) := by
  simp [geminiLoop, lastAttempt, h]

/-- Stripping never lengthens a string. -/
theorem pyStrip_length_le (s : String) : (pyStrip s).length ≤ s.length := by
  show (((s.data.dropWhile isPySpace).reverse.dropWhile isPySpace).reverse).length ≤
    s.data.length
  calc (((s.data.dropWhile isPySpace).reverse.dropWhile isPySpace).reverse).length
      = ((s.data.dropWhile isPySpace).reverse.dropWhile isPySpace).length := by
        rw [List.length_reverse]
    _ ≤ (s.data.dropWhile isPySpace).reverse.length :=
        (List.dropWhile_sublist _).length_le
    _ = (s.data.dropWhile isPySpace).length := by rw [List.length_reverse]
    _ ≤ s.data.length := (List.dropWhile_sublist _).length_le

/-- The final attempt never sleeps. -/
theorem lastAttempt_snd (failPre : String) (a : GenAttempt) :
    (lastAttempt failPre a).2 = [] := by
  cases a <;> rfl

/-- A transient outcome (timeout or network-classified exception) with
retries left sleeps linearly and recurses. -/
theorem geminiLoop_transient_step {att : Nat → GenAttempt} {i : Nat}
    (failPre : String) (r : Nat) (h : transientAttempt (att i) = true) :
    geminiLoop failPre att i (r + 1) =
      ((geminiLoop failPre att (i + 1) r).1,
       RETRY_DELAY * (i + 1) :: (geminiLoop failPre att (i + 1) r).2) := by
  cases ha : att i with
  | ok s => rw [ha] at h; simp [transientAttempt] at h
  | httpExc c d => rw [ha] at h; simp [transientAttempt] at h
  | timeout => exact geminiLoop_timeout_step failPre r ha
  | exc e =>
    rw [ha] at h
    simp only [transientAttempt] at h
    exact geminiLoop_exc_net_step failPre r ha h

/-- Claim C5 (amended).  The Generative adapter applies the 60-second
timeout constant, allows at most MAX_RETRIES = 2 additional attempts,
and its loop behaves as follows: a success or an already-typed
HTTPException on the first attempt ends the call immediately with no
retry and no back-off; a non-transient (non-network-classified)
exception becomes an immediate 500 with no retry; and when every
attempt fails transiently, exactly two back-off sleeps of RETRY_DELAY
times 1 and 2 occur and the surfaced error is the 504 timeout error
(final attempt timed out) or the 500 generation error (final attempt
raised a network-classified exception) — NOT the 503
service-unavailable error of the claim, whose raise site is
unreachable. -/
theorem c5_gemini_retry_policy :
    GEMINI_TIMEOUT = 60 ∧ MAX_RETRIES = 2 ∧ RETRY_DELAY = 1 ∧
    (∀ att s, att 0 = .ok s → generate_text_response att = (.ok s, [])) ∧
    (∀ att c d, att 0 = .httpExc c d →
        generate_text_response att = (.error (.http c d), [])) ∧
    (∀ att e, att 0 = .exc e → isNetworkErrorStr e = false →
        generate_text_response att =
          (.error (.http 500 ("Failed to generate AI response: " ++ pyTake200 e)), [])) ∧
    (∀ att, (∀ i, i ≤ MAX_RETRIES → transientAttempt (att i) = true) →
        (generate_text_response att).2 = [RETRY_DELAY * 1, RETRY_DELAY * 2] ∧
        (att 2 = .timeout →
          (generate_text_response att).1 =
            .error (.http 504 "AI service timeout. Please try again.")) ∧
        (∀ e, att 2 = .exc e →
          (generate_text_response att).1 =
            .error (.http 500 ("Failed to generate AI response: " ++ pyTake200 e)))) := by
  refine ⟨rfl, rfl, rfl, ?_, ?_, ?_, ?_⟩
  · intro att s h
    exact geminiLoop_ok _ _ h
  · intro att c d h
    exact geminiLoop_httpExc _ _ h
  · intro att e h hn
    exact geminiLoop_exc_nonNet _ _ h hn
  · intro att htr
    have hG : generate_text_response att =
        geminiLoop "Failed to generate AI response: " att 0 2 := rfl
    have s0 := geminiLoop_transient_step
      "Failed to generate AI response: " 1 (htr 0 (by decide))
    have s1 := geminiLoop_transient_step
      "Failed to generate AI response: " 0 (htr 1 (by decide))
    have hlast : geminiLoop "Failed to generate AI response: " att 2 0 =
        lastAttempt "Failed to generate AI response: " (att 2) := rfl
    refine ⟨?_, ?_, ?_⟩
    · rw [hG, s0]
      simp only [s1, hlast]
      simp [lastAttempt_snd]
    · intro h2
      rw [hG, s0]
      simp only [s1, hlast]
      rw [h2]
      rfl
    · intro e h2
      rw [hG, s0]
      simp only [s1, hlast]
      rw [h2]
      rfl

/-- Counterexample to claim C5 as stated: a transient connection error
on every attempt exhausts the retries (both back-off sleeps happen) and
surfaces a 500 internal error, not a 503 service-unavailable. -/
theorem c5_exhausted_retries_give_500_cx :
    (generate_text_response attConnRefused).1 =
      .error (.http 500 "Failed to generate AI response: connection refused") ∧
    (generate_text_response attConnRefused).2 = [1, 2] := by
  exact ⟨by decide, by decide⟩

/-- Witness for C5: the policy theorem applied to a concrete immediate
success and to a concrete all-timeouts oracle. -/
theorem c5_gemini_retry_policy_witness :
    generate_text_response attOkHi = (.ok "hi", []) ∧
    (generate_text_response attTimeoutAll).1 =
      .error (.http 504 "AI service timeout. Please try again.") ∧
    (generate_text_response attTimeoutAll).2 = [1, 2] := by
  obtain ⟨-, -, -, hok, -, -, hexh⟩ := c5_gemini_retry_policy
  have h2 := hexh attTimeoutAll (fun i _ => rfl)
  refine ⟨hok attOkHi "hi" rfl, h2.2.1 rfl, ?_⟩
  have h3 := h2.1
  simpa [RETRY_DELAY] using h3

/-- Claim C6 (amended).  Normalization accepts exactly the messages
whose stripped form is non-empty AND whose RAW (unstripped) length is
at most 5000 characters — the length ceiling is applied before
trimming, not after.  On acceptance the produced text is the stripped
message, non-empty and at most 5000 characters, and on the text path of
send_message the persisted row's message is exactly that stripped
text. -/
theorem c6_message_normalization (m : String) :
    ((∃ t, validate_and_process_message m = .ok t) ↔
      ((pyStrip m).length ≠ 0 ∧ m.length ≤ 5000)) ∧
    (∀ t, validate_and_process_message m = .ok t →
      t = pyStrip m ∧ t.length ≠ 0 ∧ t.length ≤ 5000) ∧
    (∀ cfg env uid st ai t, validate_and_process_message m = .ok t →
      (generate_text_response env.genAtt).1 = .ok ai →
      (send_message cfg env uid (some m) none st).2.db =
        st.db ++ [{ id := env.newId, user_id := uid, message := pyStrip m,
                    response := ai, message_type := .text, image_url := none,
                    voice_url := none, response_audio_url := none,
                    created_at := env.now }]) := by
  have key : ∀ t, validate_and_process_message m = .ok t →
      t = pyStrip m ∧ t.length ≠ 0 ∧ t.length ≤ 5000 := by
    intro t ht
    simp only [validate_and_process_message] at ht
    split at ht
    next h1 => simp at ht
    next h1 =>
      split at ht
      next h2 => simp at ht
      next h2 =>
        have h1' : ¬(m = "" ∨ (pyStrip m).length = 0) := by
          simpa using h1
        push_neg at h1'
        cases ht
        exact ⟨rfl, h1'.2, le_trans (pyStrip_length_le m) (Nat.le_of_not_lt h2)⟩
  refine ⟨⟨?_, ?_⟩, key, ?_⟩
  · rintro ⟨t, ht⟩
    obtain ⟨-, hlen, -⟩ := key t ht
    constructor
    · intro h0
      have := key t ht
      exact hlen (by rw [this.1, h0])
    · -- raw length bound: re-extract from the accepting branch
      simp only [validate_and_process_message] at ht
      split at ht
      next => simp at ht
      next =>
        split at ht
        next => simp at ht
        next h2 => exact Nat.le_of_not_lt h2
  · rintro ⟨hne, hle⟩
    have hm : m ≠ "" := by
      intro h
      subst h
      exact hne rfl
    have h1 : (m == "" || (pyStrip m).length == 0) = false := by
      simp [hm, hne]
    have h2 : ¬ (m.length > 5000) := not_lt.mpr hle
    refine ⟨pyStrip m, ?_⟩
    simp [validate_and_process_message, h1, h2]
  · intro cfg env uid st ai t hv hg
    obtain ⟨ht1, -, -⟩ := key t hv
    rw [ht1] at hv
    simp [send_message, sendMessageTail, hv, hg]

/-- Stripping the long example message removes exactly the one trailing
space. -/
theorem pyStrip_longMsgC6 : pyStrip longMsgC6 = String.mk (List.replicate 5000 'a') := by
  have hpa : isPySpace 'a' = false := by decide
  have hrep : List.dropWhile isPySpace (List.replicate 5000 'a') =
      List.replicate 5000 'a' := by
    rw [show (5000 : Nat) = 4999 + 1 from rfl, List.replicate_succ,
      List.dropWhile_cons, hpa, if_neg Bool.false_ne_true]
  have hA : (List.replicate 5000 'a' ++ [' ']).dropWhile isPySpace =
      List.replicate 5000 'a' ++ [' '] := by
    rw [show (5000 : Nat) = 4999 + 1 from rfl, List.replicate_succ,
      List.cons_append, List.dropWhile_cons, hpa, if_neg Bool.false_ne_true]
  have hB : (List.replicate 5000 'a' ++ [' ']).reverse =
      ' ' :: List.replicate 5000 'a' := by
    rw [List.reverse_append, List.reverse_replicate]
    rfl
  have hbody : ((((List.replicate 5000 'a' ++ [' ']).dropWhile
      isPySpace).reverse.dropWhile isPySpace).reverse) = List.replicate 5000 'a' := by
    rw [hA, hB, List.dropWhile_cons, show isPySpace ' ' = true from rfl,
      if_pos rfl, hrep, List.reverse_replicate]
  exact congrArg String.mk hbody

/-- The raw length of the long example message. -/
theorem longMsgC6_length : longMsgC6.length = 5001 := by
  show (List.replicate 5000 'a' ++ [' ']).length = 5001
  rw [List.length_append, List.length_replicate]
  rfl

/-- The stripped length of the long example message. -/
theorem pyStrip_longMsgC6_length : (pyStrip longMsgC6).length = 5000 := by
  rw [pyStrip_longMsgC6]
  show (List.replicate 5000 'a').length = 5000
  rw [List.length_replicate]

/-- Counterexample to claim C6 as stated: a 5001-character message with
one trailing space strips to exactly 5000 characters — by the claim it
must be accepted (trimmed text non-empty and not longer than 5000) —
yet the code rejects it, because it measures the raw length. -/
theorem c6_untrimmed_length_cx :
    validate_and_process_message longMsgC6 =
      .error (.http 400 "Message is too long. Maximum 5000 characters allowed.") ∧
    (pyStrip longMsgC6).length = 5000 ∧ longMsgC6.length = 5001 := by
  have h0 : longMsgC6 ≠ "" := by
    intro h
    have hl := longMsgC6_length
    rw [h] at hl
    exact absurd hl (by decide)
  have hb : (longMsgC6 == "") = false := beq_eq_false_iff_ne.mpr h0
  have hc : ((pyStrip longMsgC6).length == 0) = false := by
    rw [pyStrip_longMsgC6_length]
    rfl
  have h2 : longMsgC6.length > 5000 := by
    rw [longMsgC6_length]
    norm_num
  refine ⟨?_, pyStrip_longMsgC6_length, longMsgC6_length⟩
  unfold validate_and_process_message
  rw [hb, hc, if_neg (by decide : ¬((false || false) = true)), if_pos h2]

/-- Witness for C6: the normalization theorem applied to a concrete
acceptable message. -/
theorem c6_message_normalization_witness :
    ∃ t, validate_and_process_message "  Hi  " = .ok t := by
  exact ((c6_message_normalization "  Hi  ").1).mpr ⟨by decide, by decide⟩

/-- Claim C1 (amended).  When transcription fails on a voice submission
that passed the MIME and size checks, the request fails with the 500
transcription error and no ChatTurn is persisted; the just-stored audio
file's deletion is attempted but its failure is swallowed
(try/except pass), so the file is guaranteed gone only when the remove
succeeds — if the remove fails the file remains on disk. -/
theorem c1_stt_failure_rollback (cfg : ChatConfig) (env : ChatEnv)
    (uid : Nat) (msg : Option String) (v : VoiceFile) (st : ServerState) (e : String)
    (hmime : cfg.allowedAudioTypes.contains v.content_type = true)
    (hsize : v.size ≤ cfg.maxUploadSize)
    (hstt : env.sttOutcome = .error e)
    (hfresh : ("uploads/" ++ voiceFileName env v) ∉ st.fs) :
    (send_message cfg env uid msg (some v) st).1 =
      .error (.http 500 ("Error processing voice note: " ++ e)) ∧
    (send_message cfg env uid msg (some v) st).2.db = st.db ∧
    (env.removeOk ("uploads/" ++ voiceFileName env v) = true →
      (send_message cfg env uid msg (some v) st).2.fs = st.fs ∧
      ("uploads/" ++ voiceFileName env v) ∉ (send_message cfg env uid msg (some v) st).2.fs) ∧
    (env.removeOk ("uploads/" ++ voiceFileName env v) = false →
      (send_message cfg env uid msg (some v) st).2.fs =
        ("uploads/" ++ voiceFileName env v) :: st.fs) := by
  have hsz : ¬(v.size > cfg.maxUploadSize) := not_lt.mpr hsize
  have hmem2 : v.content_type ∈ cfg.allowedAudioTypes := by simpa using hmime
  by_cases hrem : env.removeOk ("uploads/" ++ voiceFileName env v) = true
  · have hfs : (send_message cfg env uid msg (some v) st).2.fs = st.fs := by
      simp [send_message, hmime, hmem2, hsz, hstt, hrem, List.erase_cons_head]
    refine ⟨?_, ?_, fun _ => ⟨hfs, hfs ▸ hfresh⟩,
      fun hf => absurd hrem (by rw [hf]; decide)⟩ <;>
      simp [send_message, hmime, hmem2, hsz, hstt, hrem, List.erase_cons_head]
  · have hrem' : env.removeOk ("uploads/" ++ voiceFileName env v) = false :=
      Bool.eq_false_iff.mpr hrem
    refine ⟨?_, ?_, fun ht => absurd ht hrem, fun _ => ?_⟩ <;>
      simp [send_message, hmime, hmem2, hsz, hstt, hrem']

/-- Counterexample to claim C1 as stated: when transcription fails and
the cleanup os.remove itself fails (the route swallows that failure
with except/pass), the request fails and nothing is persisted — but the
uploaded audio file still exists afterward, contradicting "the uploaded
audio file no longer exists". -/
theorem c1_stt_failure_file_retained_cx :
    (send_message cfgEx envSttFail 7 none (some voiceEx) stEmpty).1 =
      .error (.http 500 "Error processing voice note: boom") ∧
    (send_message cfgEx envSttFail 7 none (some voiceEx) stEmpty).2.db = [] ∧
    ("uploads/" ++ voiceFileName envSttFail voiceEx) ∈
      (send_message cfgEx envSttFail 7 none (some voiceEx) stEmpty).2.fs := by
  refine ⟨?_, ?_, ?_⟩ <;> decide

/-- Witness for C1: the rollback theorem applied to a concrete failing
transcription whose cleanup remove succeeds. -/
theorem c1_stt_failure_rollback_witness :
    (send_message cfgEx envSttFailRemOk 7 none (some voiceEx) stEmpty).1 =
      .error (.http 500 "Error processing voice note: boom") ∧
    (send_message cfgEx envSttFailRemOk 7 none (some voiceEx) stEmpty).2.db = [] ∧
    (send_message cfgEx envSttFailRemOk 7 none (some voiceEx) stEmpty).2.fs = [] := by
  have h := c1_stt_failure_rollback cfgEx envSttFailRemOk 7 none voiceEx stEmpty
    "boom" (by decide) (by decide) rfl (by decide)
  exact ⟨h.1, h.2.1, (h.2.2.1 rfl).1⟩

/-- Claim C2 (confirmed).  On a voice submission where the MIME and
size checks pass, transcription succeeds, normalization succeeds and
generation succeeds, a text-to-speech failure is swallowed: exactly one
ChatTurn is appended, its response_audio_url is unset, its voice_url
points at the stored input audio, and the request returns success. -/
theorem c2_tts_failure_degrades (cfg : ChatConfig) (env : ChatEnv)
    (uid : Nat) (msg : Option String) (v : VoiceFile) (st : ServerState)
    (t mt ai : String)
    (hmime : cfg.allowedAudioTypes.contains v.content_type = true)
    (hsize : v.size ≤ cfg.maxUploadSize)
    (hstt : env.sttOutcome = .ok t)
    (hval : validate_and_process_message t = .ok mt)
    (hgen : (generate_text_response env.genAtt).1 = .ok ai)
    (htts : env.ttsOk = false) :
    (∃ resp, (send_message cfg env uid msg (some v) st).1 = .ok resp) ∧
    (send_message cfg env uid msg (some v) st).2.db =
      st.db ++ [{ id := env.newId, user_id := uid, message := mt, response := ai,
                  message_type := .voice, image_url := none,
                  voice_url := some (env.baseUrl ++ "/uploads/" ++ voiceFileName env v),
                  response_audio_url := none, created_at := env.now }] ∧
    (send_message cfg env uid msg (some v) st).2.fs =
      ("uploads/" ++ voiceFileName env v) :: st.fs := by
  have hsz : ¬(v.size > cfg.maxUploadSize) := not_lt.mpr hsize
  have hmem2 : v.content_type ∈ cfg.allowedAudioTypes := by simpa using hmime
  refine ⟨?_, ?_, ?_⟩ <;>
    simp [send_message, sendMessageTail, hmime, hmem2, hsz, hstt, hval, hgen, htts]

/-- Witness for C2: the degradation theorem applied to a concrete
request whose TTS fails. -/
theorem c2_tts_failure_degrades_witness :
    (∃ resp, (send_message cfgEx envTtsFail 7 none (some voiceEx) stEmpty).1 = .ok resp) ∧
    (send_message cfgEx envTtsFail 7 none (some voiceEx) stEmpty).2.db =
      [{ id := 1, user_id := 7, message := "hello there", response := "hi",
         message_type := .voice, image_url := none,
         voice_url := some "http://h/uploads/u1.mp3",
         response_audio_url := none, created_at := 5 }] := by
  have h := c2_tts_failure_degrades cfgEx envTtsFail 7 none voiceEx stEmpty
    "hello there" "hello there" "hi" (by decide) (by decide) rfl (by decide) rfl rfl
  refine ⟨h.1, ?_⟩
  rw [h.2.1]
  decide

/-- Claim C7 (code bug).  chat.py validates the MIME type against
settings.ALLOWED_AUDIO_TYPES, but config.Settings declares no such
field, so the attribute lookup fails and every voice submission —
even one with an allow-listed MIME type and a small size — dies with
an uncaught AttributeError (a 500), not a 400 validation outcome, and
no storage write happens.  The validation-before-write logic itself is
unreachable as configured. -/
theorem c7_audio_allowlist_missing :
    "ALLOWED_AUDIO_TYPES" ∉ settingsFields ∧
    settingsListAttr "ALLOWED_AUDIO_TYPES" = none ∧
    (send_message_app envSttFail 7 none (some voiceEx) stEmpty).1 =
      .error (.attrError "ALLOWED_AUDIO_TYPES") ∧
    (send_message_app envSttFail 7 none (some voiceEx) stEmpty).2 = stEmpty := by
  refine ⟨?_, ?_, ?_, ?_⟩ <;> decide

/-- Claim C4 (code bug).  The forgot-password route returns one message
for a registered email and a different one for an unregistered email,
so the response text reveals whether the email is registered — the two
"generic success" responses are not identical. -/
theorem c4_forgot_password_responses_differ :
    (forgot_password envResetC4 dbAuthC4 "alice@example.com").1 =
      "Password reset email sent successfully. Check your inbox (or console for testing)." ∧
    (forgot_password envResetC4 dbAuthC4 "bob@example.com").1 =
      "If an account with that email exists, a password reset link has been sent." ∧
    (forgot_password envResetC4 dbAuthC4 "alice@example.com").1 ≠
      (forgot_password envResetC4 dbAuthC4 "bob@example.com").1 := by
  refine ⟨?_, ?_, ?_⟩ <;> decide

/-- A list of rows sharing one timestamp is ordered by createdAt
descending however it is permuted. -/
theorem chain_of_const_created (l : List ChatRow) (c : Nat)
    (h : ∀ r ∈ l, r.created_at = c) : createdAtDescOrdered l := by
  unfold createdAtDescOrdered
  induction l with
  | nil => exact List.chain'_nil
  | cons a t ih =>
    cases t with
    | nil => exact List.chain'_singleton a
    | cons b t2 =>
      refine List.chain'_cons.mpr ⟨?_, ?_⟩
      · rw [h a (by simp), h b (by simp)]
      · exact ih (fun r hr => h r (List.mem_cons_of_mem a hr))

/-- Every row of the 100-row example shares the timestamp 5. -/
theorem dbC3_const_created : ∀ r ∈ dbC3, r.created_at = 5 := by
  intro r hr
  obtain ⟨i, -, rfl⟩ := List.mem_map.mp hr
  rfl

/-- Counterexample to claim C3 as stated: with 100 turns sharing one
createdAt timestamp, the query ORDER BY created_at DESC (no secondary
key) admits different orderings on the two page calls; here the first
page of 50 and the second page of 50 both contain the turn with id 0,
so the pages are neither disjoint nor duplicate-free. -/
theorem c3_tied_timestamps_duplicate_cx :
    (ownerRows dbC3 1).length = 100 ∧
    get_chat_history dbC3 1 0 50 (dbC3.take 50) ∧
    get_chat_history dbC3 1 50 50 ((dbC3.reverse.drop 50).take 50) ∧
    rowC3 0 ∈ dbC3.take 50 ∧
    rowC3 0 ∈ (dbC3.reverse.drop 50).take 50 := by
  have hAll : ownerRows dbC3 1 = dbC3 := by decide
  have hsorted : createdAtDescOrdered dbC3 :=
    chain_of_const_created dbC3 5 dbC3_const_created
  have hsorted2 : createdAtDescOrdered dbC3.reverse :=
    chain_of_const_created dbC3.reverse 5
      (fun r hr => dbC3_const_created r (List.mem_reverse.mp hr))
  refine ⟨by decide, ⟨dbC3, by rw [hAll], hsorted, by simp⟩,
    ⟨dbC3.reverse, by rw [hAll]; exact List.reverse_perm dbC3, hsorted2, rfl⟩,
    by decide, by decide⟩

/-- Claim C3 (amended).  The history query orders only by createdAt
descending, with no secondary key; pagination is deterministic and
duplicate-free only when both pages are read from one and the same
admissible ordering.  In that case the two pages of 50 are valid query
results, contiguous (their concatenation is the first 100 rows of the
ordering), and share no id provided the owner's rows have pairwise
distinct ids. -/
theorem c3_pagination_single_order (db : List ChatRow) (uid : Nat)
    (ord : List ChatRow)
    (hperm : ord.Perm (ownerRows db uid))
    (hsort : createdAtDescOrdered ord)
    (hnodup : ((ownerRows db uid).map ChatRow.id).Nodup) :
    get_chat_history db uid 0 50 (ord.take 50) ∧
    get_chat_history db uid 50 50 ((ord.drop 50).take 50) ∧
    ord.take 50 ++ (ord.drop 50).take 50 = ord.take 100 ∧
    (∀ r1 ∈ ord.take 50, ∀ r2 ∈ (ord.drop 50).take 50, r1.id ≠ r2.id) := by
  have hsplit : ord.take 100 = ord.take 50 ++ (ord.drop 50).take 50 := by
    rw [show (100 : Nat) = 50 + 50 from rfl, List.take_add]
  have hOrdNodup : (ord.map ChatRow.id).Nodup :=
    ((hperm.map ChatRow.id).nodup_iff).mpr hnodup
  have hTake : ((ord.take 100).map ChatRow.id).Nodup := by
    rw [List.map_take]
    exact (List.take_sublist 100 (ord.map ChatRow.id)).nodup hOrdNodup
  rw [hsplit, List.map_append, List.nodup_append] at hTake
  obtain ⟨-, -, hdisj⟩ := hTake
  refine ⟨⟨ord, hperm, hsort, by simp⟩, ⟨ord, hperm, hsort, rfl⟩, hsplit.symm, ?_⟩
  intro r1 h1 r2 h2 heq
  exact hdisj (List.mem_map_of_mem _ h1) (heq ▸ List.mem_map_of_mem _ h2)

/-- Witness for C3: the single-ordering pagination theorem applied to a
concrete two-row history. -/
theorem c3_pagination_single_order_witness :
    get_chat_history dbC3small 1 0 50 (dbC3small.take 50) ∧
    get_chat_history dbC3small 1 50 50 ((dbC3small.drop 50).take 50) := by
  have hs : createdAtDescOrdered dbC3small := by
    unfold createdAtDescOrdered dbC3small
    exact List.chain'_cons.mpr ⟨by decide, List.chain'_singleton _⟩
  have h := c3_pagination_single_order dbC3small 1 dbC3small
    (by decide) hs (by decide)
  exact ⟨h.1, h.2.1⟩

/-- Counterexample to claim C8 as stated, in two parts.  First,
deleteOne: when the stored image file of a turn cannot be removed, the
failure is NOT swallowed — the raw os.remove error propagates to the
caller and the turn is not deleted.  Second, deleteAll: even with every
remove succeeding, the voice and response-audio files referenced by a
deleted voice turn are left on disk, because only image_url is ever
cleaned up. -/
theorem c8_delete_asset_failure_cx :
    (delete_chat removeFail 7 1 stC8).1 = .error (.osError "uploads/img1.png") ∧
    rowImgC8 ∈ (delete_chat removeFail 7 1 stC8).2.db ∧
    (delete_all_chats removeSucc 7 stC8v).1 = .ok "Deleted 1 chat(s) successfully" ∧
    (delete_all_chats removeSucc 7 stC8v).2.db = [] ∧
    "uploads/v1.mp3" ∈ (delete_all_chats removeSucc 7 stC8v).2.fs ∧
    "uploads/ra1.mp3" ∈ (delete_all_chats removeSucc 7 stC8v).2.fs := by
  refine ⟨?_, ?_, ?_, ?_, ?_, ?_⟩ <;> decide

/-- Claim C8 (amended).  delete_all_chats is genuinely best-effort: it
always reports success, always deletes all of the caller's turns
whatever the remove oracle does, and touches no file when none of the
turns references an image.  delete_chat deletes the turn when the
image removal succeeds (or there is no image file to remove), but a
failing removal of an existing image file propagates as an error and
the turn is NOT deleted.  Neither operation deletes voice or
response-audio assets. -/
theorem c8_asset_cleanup_policy :
    (∀ rok uid st, (delete_all_chats rok uid st).1 =
        .ok ("Deleted " ++
          toString (st.db.filter (fun r => r.user_id == uid)).length ++
          " chat(s) successfully") ∧
      (delete_all_chats rok uid st).2.db =
        st.db.filter (fun r => !(r.user_id == uid))) ∧
    (∀ rok chats fs, (∀ c ∈ chats, c.image_url = none) →
      deleteAllAssets rok chats fs = fs) ∧
    (∀ rok uid cid st chat url,
      st.db.find? (fun r => r.id == cid && r.user_id == uid) = some chat →
      chat.image_url = some url →
      ("uploads/" ++ lastUrlSegment url) ∈ st.fs →
      rok ("uploads/" ++ lastUrlSegment url) = false →
      delete_chat rok uid cid st =
        (.error (.osError ("uploads/" ++ lastUrlSegment url)), st)) ∧
    (∀ rok uid cid st chat url,
      st.db.find? (fun r => r.id == cid && r.user_id == uid) = some chat →
      chat.image_url = some url →
      ("uploads/" ++ lastUrlSegment url) ∈ st.fs →
      rok ("uploads/" ++ lastUrlSegment url) = true →
      delete_chat rok uid cid st =
        (.ok "Chat deleted successfully",
         { db := st.db.erase chat,
           fs := st.fs.erase ("uploads/" ++ lastUrlSegment url) })) := by
  refine ⟨?_, ?_, ?_, ?_⟩
  · intro rok uid st
    exact ⟨rfl, rfl⟩
  · intro rok chats
    induction chats with
    | nil => intro fs _; rfl
    | cons c t ih =>
      intro fs h
      have hc : c.image_url = none := h c (by simp)
      show List.foldl _ fs (c :: t) = fs
      rw [List.foldl_cons]
      have hstep : (match c.image_url with
          | some url =>
            let path := "uploads/" ++ lastUrlSegment url
            if path ∈ fs then
              if rok path then fs.erase path else fs
            else fs
          | none => fs) = fs := by
        rw [hc]
      simpa [deleteAllAssets, hstep] using ih fs (fun r hr => h r (by simp [hr]))
  · intro rok uid cid st chat url hfind himg hmem hrok
    simp [delete_chat, hfind, himg, hmem, hrok]
  · intro rok uid cid st chat url hfind himg hmem hrok
    simp [delete_chat, hfind, himg, hmem, hrok]

/-- Witness for C8: the amended policy applied to concrete states — a
successful single delete with image cleanup, and a delete-all run. -/
theorem c8_asset_cleanup_policy_witness :
    delete_chat removeSucc 7 1 stC8 =
      (.ok "Chat deleted successfully", { db := [], fs := [] }) ∧
    (delete_all_chats removeSucc 7 stC8v).1 = .ok "Deleted 1 chat(s) successfully" := by
  obtain ⟨hall, -, -, hone⟩ := c8_asset_cleanup_policy
  constructor
  · have h := hone removeSucc 7 1 stC8 rowImgC8 "http://h/uploads/img1.png"
      (by decide) rfl (by decide) rfl
    rw [h]
    decide
  · have h := (hall removeSucc 7 stC8v).1
    rw [h]
    decide

/-- Claim C9 (confirmed).  With a strong new password and a stored,
unexpired, unused token owned by an existing user, reset_password
succeeds and its single commit both rewrites the owner's password hash
and flips the token's used flag; an immediate second call with the same
token against the resulting state fails with the already-used error;
and the not-found, expired and already-used failures carry three
pairwise distinct error payloads. -/
theorem c9_reset_token_single_use (db : AuthDb) (tok pw : String) (now : Nat)
    (rt : TokenRow) (u : UserRow)
    (hs : validate_password_strength pw = .ok ())
    (hfind : db.tokens.find? (fun t => t.token == tok) = some rt)
    (hexp : ¬ rt.expires_at < now)
    (hused : rt.is_used = false)
    (huser : db.users.find? (fun x => x.id == rt.user_id) = some u) :
    (reset_password db tok pw now).1 = .ok () ∧
    (reset_password db tok pw now).2.users = db.users.map (fun x =>
      if x.id == u.id then { x with hashed_password := get_password_hash pw } else x) ∧
    (reset_password db tok pw now).2.tokens = db.tokens.map (fun t =>
      if t.token == tok then { t with is_used := true } else t) ∧
    (reset_password (reset_password db tok pw now).2 tok pw now).1 =
      .error (.http 400 "Reset token has already been used") ∧
    ((ReqError.http 400 "Invalid or expired reset token" ≠
        .http 400 "Reset token has expired") ∧
     (ReqError.http 400 "Invalid or expired reset token" ≠
        .http 400 "Reset token has already been used") ∧
     (ReqError.http 400 "Reset token has expired" ≠
        .http 400 "Reset token has already been used")) := by
  have hfirst : reset_password db tok pw now =
      (.ok (),
       { users := db.users.map (fun x =>
           if x.id == u.id then { x with hashed_password := get_password_hash pw } else x)
         tokens := db.tokens.map (fun t =>
           if t.token == tok then { t with is_used := true } else t) }) := by
    simp [reset_password, hs, hfind, hexp, hused, huser]
  have hrtTok : rt.token = tok := by
    have h := List.find?_some hfind
    simpa using h
  have hcomp : ((fun t : TokenRow => t.token == tok) ∘ (fun t : TokenRow =>
      if t.token == tok then { t with is_used := true } else t)) =
      (fun t : TokenRow => t.token == tok) := by
    funext t
    by_cases h : t.token = tok
    · simp [h]
    · simp [h]
  have hfind2 : (db.tokens.map (fun t =>
      if t.token == tok then { t with is_used := true } else t)).find?
        (fun t => t.token == tok) = some { rt with is_used := true } := by
    rw [List.find?_map, hcomp, hfind]
    simp [hrtTok]
  have hsecond : (reset_password (reset_password db tok pw now).2 tok pw now).1 =
      .error (.http 400 "Reset token has already been used") := by
    rw [hfirst]
    show (reset_password
      { users := db.users.map (fun x =>
          if x.id == u.id then { x with hashed_password := get_password_hash pw } else x)
        tokens := db.tokens.map (fun t =>
          if t.token == tok then { t with is_used := true } else t) }
      tok pw now).1 = .error (.http 400 "Reset token has already been used")
    simp only [reset_password, hs]
    rw [hfind2]
    simp [hexp]
  exact ⟨by rw [hfirst], by rw [hfirst], by rw [hfirst], hsecond,
    by decide, by decide, by decide⟩

/-- Witness for C9: the single-use theorem applied to a concrete store
holding one valid token. -/
theorem c9_reset_token_single_use_witness :
    (reset_password dbTokC9 "t1" "Str0ngpass" 50).1 = .ok () ∧
    (reset_password (reset_password dbTokC9 "t1" "Str0ngpass" 50).2
      "t1" "Str0ngpass" 50).1 =
      .error (.http 400 "Reset token has already been used") := by
  have h := c9_reset_token_single_use dbTokC9 "t1" "Str0ngpass" 50
    { id := 1, user_id := 1, token := "t1", expires_at := 100,
      is_used := false, created_at := 0 }
    { id := 1, email := "alice@example.com", username := "alice",
      hashed_password := "bcrypt$Old1pass" }
    (by decide) (by decide) (by decide) rfl (by decide)
  exact ⟨h.1, h.2.2.2.1⟩

/-- Claim C10 (confirmed).  reset_password validates the new password's
strength before any token lookup, so a policy-violating password yields
exactly the policy error whatever the token's state, with the store
unchanged; and the expiry check precedes the used-flag check, so a
token that is both expired and consumed reports the expired error. -/
theorem c10_reset_check_order (db : AuthDb) (tok pw : String) (now : Nat) :
    (∀ e, validate_password_strength pw = .error e →
      reset_password db tok pw now = (.error e, db)) ∧
    (∀ rt, validate_password_strength pw = .ok () →
      db.tokens.find? (fun t => t.token == tok) = some rt →
      rt.expires_at < now →
      reset_password db tok pw now =
        (.error (.http 400 "Reset token has expired"), db)) := by
  constructor
  · intro e he
    simp [reset_password, he]
  · intro rt hs hfind hexp
    simp [reset_password, hs, hfind, hexp]

/-- Witness for C10: the ordering theorem applied to a weak password
against a store whose token is both expired and already used, and to a
strong password against the same store. -/
theorem c10_reset_check_order_witness :
    reset_password dbTokC10 "t1" "weak" 50 =
      (.error (.http 400 "Password must be at least 8 characters long"), dbTokC10) ∧
    reset_password dbTokC10 "t1" "Str0ngpass" 50 =
      (.error (.http 400 "Reset token has expired"), dbTokC10) := by
  have h := c10_reset_check_order dbTokC10 "t1" "weak" 50
  have h2 := c10_reset_check_order dbTokC10 "t1" "Str0ngpass" 50
  exact ⟨h.1 (.http 400 "Password must be at least 8 characters long") (by decide),
    h2.2 { id := 1, user_id := 1, token := "t1", expires_at := 40,
           is_used := true, created_at := 0 }
      (by decide) (by decide) (by decide)⟩
